import Mathlib

/-!
Shallow embedding of `cosmic-screenshot` (src/src/main.rs) and verification of
claims about its specification.

Paths are modelled as lists of components of an absolute path (so `[]` is the
filesystem root `/`).  The filesystem is a finite map from paths to files
(carrying a device number and a content string) together with a finite map from
paths to directories (carrying a device number).  The `std::fs` operations used
by the program are embedded with their documented Linux semantics:
`fs::rename` fails across devices (EXDEV), `fs::copy` requires the destination
parent to exist, `fs::create_dir_all` creates every missing component and fails
when a component exists as a regular file.  Fallible external collaborators
(portal send, portal response, bus connection, the copy syscall) are supplied
as explicit inputs in an `Env` record, and the program is embedded as a
deterministic function from arguments, environment and initial filesystem to a
final state, an event trace and an exit outcome.
-/

namespace CosmicScreenshot

/-- Absolute filesystem path, as the list of its components. -/
abbrev Path := List String

/-- Rust `Path::parent`: drop the last component; the root has no parent. -/
def Path.parent : Path → Option Path
  | [] => none
  | p => some p.dropLast

/-- Rust `Path::join` with a single-component (file or directory) name. -/
def Path.join (p : Path) (c : String) : Path := p ++ [c]

/-- Rust `Path::starts_with`: component-wise prefix test. -/
def Path.startsWith (p base : Path) : Bool := base.isPrefixOf p

/-- Rust `Path::to_string_lossy` for an absolute path. -/
def Path.render (p : Path) : String := "/" ++ String.intercalate "/" p

/-- Per-file metadata: the device the file lives on, and its byte content. -/
structure FileData where
  dev : Nat
  content : String
deriving DecidableEq, Repr

/-- A filesystem: files and directories, each carrying a device number. -/
structure FS where
  files : List (Path × FileData)
  dirs : List (Path × Nat)
deriving DecidableEq, Repr

/-- First-match association-list lookup. -/
def assocFind {α : Type} (p : Path) : List (Path × α) → Option α
  | [] => none
  | (q, v) :: rest => if q = p then some v else assocFind p rest

/-- Remove every binding of a key from an association list. -/
def assocErase {α : Type} (p : Path) : List (Path × α) → List (Path × α)
  | [] => []
  | (q, v) :: rest => if q = p then assocErase p rest else (q, v) :: assocErase p rest

/-- Metadata of the regular file at `p`, if any. -/
def FS.fileData (fs : FS) (p : Path) : Option FileData := assocFind p fs.files

/-- Device of the directory at `p`, if a directory exists there. -/
def FS.dirDev (fs : FS) (p : Path) : Option Nat := assocFind p fs.dirs

/-- Rust `Path::is_dir`. -/
def FS.isDir (fs : FS) (p : Path) : Bool := (fs.dirDev p).isSome

/-- Device reported by `fs::metadata(p).dev()`; `none` models a metadata error. -/
def FS.metadataDev (fs : FS) (p : Path) : Option Nat :=
  match fs.fileData p with
  | some fd => some fd.dev
  | none => fs.dirDev p

/-- One step of `fs::create_dir_all`: ensure the single component `q` is a
directory.  Fails when a regular file sits at `q`, or when the parent of a
missing `q` is not an existing directory.  A directory created inherits the
device of its parent. -/
def FS.mkDirStep (fs : FS) (q : Path) : Option FS :=
  if (fs.fileData q).isSome then none
  else if fs.isDir q then some fs
  else
    match Path.parent q with
    | none => none
    | some par =>
      match fs.dirDev par with
      | some d => some { fs with dirs := fs.dirs ++ [(q, d)] }
      | none => none

/-- All ancestors of `p` from the root down to `p` itself. -/
def pathPrefixes (p : Path) : List Path :=
  (List.range (p.length + 1)).map (fun n => p.take n)

/-- Ensure every path in the list is a directory, in order. -/
def createAlong : FS → List Path → Option FS
  | fs, [] => some fs
  | fs, q :: rest =>
    match fs.mkDirStep q with
    | none => none
    | some fs' => createAlong fs' rest

/-- Rust `fs::create_dir_all`: create `p` and all missing ancestors. -/
def FS.createDirAll (fs : FS) (p : Path) : Option FS :=
  createAlong fs (pathPrefixes p)

/-- Rust `fs::rename` on Linux: the source must exist, the destination parent
must be an existing directory on the same device as the source (otherwise the
call fails with EXDEV), and the destination must not be a directory. -/
def FS.renameFile (fs : FS) (src dst : Path) : Option FS :=
  match fs.fileData src, Path.parent dst with
  | some fd, some dpar =>
    match fs.dirDev dpar with
    | some ddev =>
      if fd.dev ≠ ddev then none
      else if (fs.dirDev dst).isSome then none
      else some { fs with files := assocErase dst (assocErase src fs.files) ++ [(dst, fd)] }
    | none => none
  | _, _ => none

/-- Rust `fs::copy`: read the source file, write its content to `dst`, which
lands on the device of the destination parent directory. -/
def FS.copyFile (fs : FS) (src dst : Path) : Option FS :=
  match fs.fileData src, Path.parent dst with
  | some fd, some dpar =>
    match fs.dirDev dpar with
    | some ddev =>
      if (fs.dirDev dst).isSome then none
      else some { fs with files := assocErase dst fs.files ++ [(dst, ⟨ddev, fd.content⟩)] }
    | none => none
  | _, _ => none

/-- Rust `fs::remove_file`. -/
def FS.removeFile (fs : FS) (src : Path) : Option FS :=
  if (fs.fileData src).isSome then some { fs with files := assocErase src fs.files }
  else none

/-- The filesystem-mutating calls the program can attempt. -/
inductive FsOp
  | createDirAll (p : Path)
  | rename (src dst : Path)
  | copy (src dst : Path)
  | removeFile (p : Path)
deriving DecidableEq, Repr

/-- Outcome of `move_picture`: the filesystem afterwards (unchanged suffixes of
a failed call are kept as-is), the mutating calls attempted in order, and the
panic message when the function aborted the process. -/
structure MoveResult where
  fs : FS
  ops : List FsOp
  panicMsg : Option String
deriving DecidableEq, Repr

/-- Embedding of `move_picture` from src/src/main.rs.  `copyFails` injects a
failure into the `fs::copy` call, as the spec's testable properties require.
The device comparison is kept exactly as written in the source: the rename
branch runs when the devices DIFFER, the copy-and-delete branch when they are
equal. -/
def move_picture (copyFails : Bool) (fs : FS) (src_file dst_file : Path) : MoveResult :=
  match fs.metadataDev src_file with
  | none => ⟨fs, [], some "Failed to get metadata on filesystem for picture source path."⟩
  | some srcDev =>
    match Path.parent dst_file with
    | none => ⟨fs, [], some "Failed to get parent directory of destination path."⟩
    | some dst_dir =>
      match fs.metadataDev dst_dir with
      | none => ⟨fs, [], some "Failed to get metadata on filesystem for picture destination."⟩
      | some dstDev =>
        if srcDev ≠ dstDev then
          match fs.renameFile src_file dst_file with
          | none => ⟨fs, [.rename src_file dst_file], some "Failed to move screenshot."⟩
          | some fs' => ⟨fs', [.rename src_file dst_file], none⟩
        else
          match (if copyFails then none else fs.copyFile src_file dst_file) with
          | none => ⟨fs, [.copy src_file dst_file], some "Failed to move screenshot."⟩
          | some fs' =>
            match fs'.removeFile src_file with
            | none => ⟨fs', [.copy src_file dst_file, .removeFile src_file],
                some "Failed to remove temporary screenshot."⟩
            | some fs'' => ⟨fs'', [.copy src_file dst_file, .removeFile src_file], none⟩

/-- Command-line arguments, with their clap defaults. -/
structure Args where
  interactive : Bool := true
  modal : Bool := true
  notify : Bool := true
  save_dir : Option Path := none
deriving DecidableEq, Repr

/-- A local wall-clock timestamp as produced by `chrono::Local::now()`. -/
structure DateTime where
  year : Nat
  month : Nat
  day : Nat
  hour : Nat
  minute : Nat
  second : Nat
deriving DecidableEq, Repr

/-- The URI carried by a successful portal response.  `filePath` is the result
of `Url::to_file_path` when it succeeds; it is only consulted for the `file`
scheme. -/
structure Uri where
  scheme : String
  filePath : Option Path
deriving DecidableEq, Repr

/-- External collaborators of one run: the platform directory lookups, the
clock, the portal send outcome and response, and fault injection for the
copy syscall, the session-bus connection and the notify call. -/
structure Env where
  picturesDir : Option Path
  documentsDir : Option Path
  now : DateTime
  sendOk : Bool
  response : Except String Uri
  copyFails : Bool
  busOk : Bool
  notifyOk : Bool
deriving Repr

/-- The three localized message keys the program looks up. -/
inductive MessageKey
  | cosmicScreenshot
  | screenshotSavedToClipboard
  | screenshotSavedTo
deriving DecidableEq, Repr

/-- A string argument of the notify call: either the localized text for a
message key, or a plain runtime string. -/
inductive NotifyText
  | localized (k : MessageKey)
  | plain (s : String)
deriving DecidableEq, Repr

/-- The arguments of the single `org.freedesktop.Notifications.Notify` call,
in the order of the D-Bus method signature. -/
structure Notification where
  appName : NotifyText
  replacesId : Nat
  appIcon : String
  summary : NotifyText
  body : NotifyText
  actions : List String
  hintTransient : Bool
  expireTimeout : Int
deriving DecidableEq, Repr

/-- Externally observable events of a run, in program order. -/
inductive Event
  | fsOp (op : FsOp)
  | captureRequest
  | busConnect
  | notifySend (n : Notification)
deriving DecidableEq, Repr

/-- Does the event mutate or delete an existing file (move, copy, delete)? -/
def Event.isFileMove : Event → Bool
  | .fsOp (.rename _ _) => true
  | .fsOp (.copy _ _) => true
  | .fsOp (.removeFile _) => true
  | _ => false

/-- The notifications sent during a trace, in order. -/
def sentNotifications : List Event → List Notification
  | [] => []
  | .notifySend n :: rest => n :: sentNotifications rest
  | _ :: rest => sentNotifications rest

/-- Mutable observable state threaded through a run. -/
structure St where
  fs : FS
  trace : List Event
  stdout : List String
  stderr : List String
deriving DecidableEq, Repr

/-- How the process ended: a clean exit with a code, or a panic (which on a
real system exits with a nonzero code and a diagnostic). -/
inductive RunExit
  | exited (code : Nat)
  | panicked (msg : String)
deriving DecidableEq, Repr

/-- Result of a whole run.  `savedPath` is the value of the `path` variable of
`main` when the run got far enough to compute it. -/
structure RunResult where
  st : St
  exit : RunExit
  savedPath : Option String
deriving DecidableEq, Repr

/-- Initial state over a starting filesystem. -/
def initSt (fs : FS) : St := ⟨fs, [], [], []⟩

/-- Append an event to the trace. -/
def emit (st : St) (e : Event) : St := { st with trace := st.trace ++ [e] }

/-- A pipeline stage either ends the run (`inl`) or continues (`inr`). -/
abbrev StepResult (α : Type) := Sum RunResult (St × α)

/-- Embedding of `args.save_dir.filter(|dir| dir.is_dir())`. -/
def validSaveDir (fs : FS) (sd : Option Path) : Option Path :=
  match sd with
  | some d => if fs.isDir d then some d else none
  | none => none

/-- Embedding of the `save_dir` resolution at the top of `main`: in
non-interactive mode a missing or invalid `--save-dir` falls back to
`<pictures>/Screenshots`, created eagerly. -/
def stepSaveDir (args : Args) (env : Env) (st : St) : StepResult (Option Path) :=
  if args.interactive then .inr (st, none)
  else
    match validSaveDir st.fs args.save_dir with
    | some d => .inr (st, some d)
    | none =>
      match env.picturesDir with
      | none => .inl ⟨st, .panicked "failed to locate picture directory", none⟩
      | some pics =>
        let screenshot_dir := Path.join pics "Screenshots"
        let st := emit st (.fsOp (.createDirAll screenshot_dir))
        match st.fs.createDirAll screenshot_dir with
        | none => .inl ⟨st, .panicked "Failed to create Screenshots dir.", none⟩
        | some fs' => .inr ({ st with fs := fs' }, some screenshot_dir)

/-- Does `needle` occur as a contiguous run inside the character list? -/
def charsContain (needle : List Char) : List Char → Bool
  | [] => needle.isEmpty
  | c :: rest => needle.isPrefixOf (c :: rest) || charsContain needle rest

/-- Substring test used for `err.to_string().contains("Cancelled")`. -/
def strContains (hay needle : String) : Bool := charsContain needle.data hay.data

/-- Embedding of the portal request and the handling of an error response:
cancellation prints to stdout and exits 0, any other portal error prints to
stderr and exits 1. -/
def stepCapture (env : Env) (st : St) : StepResult Uri :=
  let st := emit st .captureRequest
  if !env.sendOk then .inl ⟨st, .panicked "failed to send screenshot request", none⟩
  else
    match env.response with
    | .error err =>
      if strContains err "Cancelled" then
        .inl ⟨{ st with stdout := st.stdout ++ ["Screenshot cancelled by user"] }, .exited 0, none⟩
      else
        .inl ⟨{ st with stderr := st.stderr ++ ["Error taking screenshot: " ++ err] }, .exited 1, none⟩
    | .ok uri => .inr (st, uri)

/-- Zero-padded decimal rendering to at least two digits (chrono `%m` etc.). -/
def pad2 (n : Nat) : String := if n < 10 then "0" ++ toString n else toString n

/-- Zero-padded decimal rendering to at least four digits (chrono `%Y`). -/
def pad4 (n : Nat) : String :=
  if n < 10 then "000" ++ toString n
  else if n < 100 then "00" ++ toString n
  else if n < 1000 then "0" ++ toString n
  else toString n

/-- Embedding of `format!("Screenshot_{}.png", date.format("%Y-%m-%d_%H-%M-%S"))`. -/
def screenshotFilename (d : DateTime) : String :=
  "Screenshot_" ++ pad4 d.year ++ "-" ++ pad2 d.month ++ "-" ++ pad2 d.day ++ "_"
    ++ pad2 d.hour ++ "-" ++ pad2 d.minute ++ "-" ++ pad2 d.second ++ ".png"

/-- Embedding of the `target_dir` selection chain in the `file` branch of
`main`: explicit save directory first, then `<pictures>/Screenshots` when the
source lies under the pictures directory, then the documents directory when it
lies under the documents directory, and otherwise the response path itself,
exactly as the source writes it. -/
def resolveTargetDir (save_dir : Option Path) (pictures_dir documents_dir response_path : Path) :
    Path :=
  match save_dir with
  | some d => d
  | none =>
    if Path.startsWith response_path pictures_dir then Path.join pictures_dir "Screenshots"
    else if Path.startsWith response_path documents_dir then documents_dir
    else response_path

/-- The full destination path of the screenshot: resolved directory joined
with the generated filename. -/
def targetImgPath (save_dir : Option Path) (pictures_dir documents_dir response_path : Path)
    (now : DateTime) : Path :=
  Path.join (resolveTargetDir save_dir pictures_dir documents_dir response_path)
    (screenshotFilename now)

/-- Embedding of the scheme dispatch of `main`: the `file` branch resolves the
destination, creates it and moves the picture; the `clipboard` branch yields
the empty path; any other scheme panics. -/
def stepPath (save_dir : Option Path) (env : Env) (st : St) (uri : Uri) : StepResult String :=
  if uri.scheme = "file" then
    match uri.filePath with
    | none => .inl ⟨st, .panicked "unsupported response URI", none⟩
    | some response_path =>
      match env.picturesDir with
      | none => .inl ⟨st, .panicked "Failed to locate Pictures directory.", none⟩
      | some pictures_dir =>
        match env.documentsDir with
        | none => .inl ⟨st, .panicked "Failed to locate Documents directory.", none⟩
        | some documents_dir =>
          let target_dir := resolveTargetDir save_dir pictures_dir documents_dir response_path
          let st := emit st (.fsOp (.createDirAll target_dir))
          match st.fs.createDirAll target_dir with
          | none => .inl ⟨st, .panicked ("Failed to create directory " ++ Path.render target_dir), none⟩
          | some fs' =>
            let st := { st with fs := fs' }
            let target_img_path := targetImgPath save_dir pictures_dir documents_dir response_path env.now
            let mv := move_picture env.copyFails st.fs response_path target_img_path
            let st := { st with fs := mv.fs, trace := st.trace ++ mv.ops.map Event.fsOp }
            match mv.panicMsg with
            | some m => .inl ⟨st, .panicked m, none⟩
            | none => .inr (st, Path.render target_img_path)
  else if uri.scheme = "clipboard" then .inr (st, "")
  else .inl ⟨st, .panicked ("unsupported scheme " ++ uri.scheme), none⟩

/-- Embedding of the tail of `main`: print the path, then, when `notify` is
set, connect to the session bus and send one notification whose summary
distinguishes the clipboard case and whose body is the path. -/
def stepFinish (args : Args) (env : Env) (st : St) (path : String) : RunResult :=
  let st := { st with stdout := st.stdout ++ [path] }
  if args.notify then
    let st := emit st .busConnect
    if !env.busOk then ⟨st, .panicked "failed to connect to session bus", some path⟩
    else
      let message : NotifyText :=
        if path.isEmpty then .localized .screenshotSavedToClipboard
        else .localized .screenshotSavedTo
      let n : Notification :=
        ⟨.localized .cosmicScreenshot, 0, "com.system76.CosmicScreenshot", message,
          .plain path, [], true, 5000⟩
      let st := emit st (.notifySend n)
      if !env.notifyOk then ⟨st, .panicked "failed to send notification", some path⟩
      else ⟨st, .exited 0, some path⟩
  else ⟨st, .exited 0, some path⟩

/-- The whole program: `main` of src/src/main.rs as a deterministic function
of the arguments, the environment and the initial filesystem. -/
def runMain (args : Args) (env : Env) (fs0 : FS) : RunResult :=
  match stepSaveDir args env (initSt fs0) with
  | .inl r => r
  | .inr (st, save_dir) =>
    match stepCapture env st with
    | .inl r => r
    | .inr (st, uri) =>
      match stepPath save_dir env st uri with
      | .inl r => r
      | .inr (st, path) => stepFinish args env st path

/-- Is the event a directory creation? -/
def Event.isMkdir : Event → Bool
  | .fsOp (.createDirAll _) => true
  | _ => false

/-- Is the event a filesystem call at all? -/
def Event.isFsOp : Event → Bool
  | .fsOp _ => true
  | _ => false

/-! Concrete fixtures used by counterexamples and witnesses.  A single device
`0` carries the root, `/tmp`, `/home` and the well-known directories; the
pictures directory is `/home/Pictures` and the documents directory is
`/home/Documents`. -/

/-- Baseline directory tree, no files. -/
def egDirs : List (Path × Nat) :=
  [([], 0), (["tmp"], 0), (["home"], 0), (["home", "Pictures"], 0),
   (["home", "Pictures", "Screenshots"], 0), (["home", "Documents"], 0)]

/-- A screenshot parked at `/tmp/shot.png`, same device as everything else. -/
def egFS : FS := ⟨[(["tmp", "shot.png"], ⟨0, "IMG"⟩)], egDirs⟩

/-- A screenshot parked at `/tmp/shot.png` on device `1`, with `/tmp` mounted
on device `1` and the rest of the tree on device `0`. -/
def egFSx : FS :=
  ⟨[(["tmp", "shot.png"], ⟨1, "IMG"⟩)],
   [([], 0), (["tmp"], 1), (["home"], 0), (["home", "Pictures"], 0),
    (["home", "Pictures", "Screenshots"], 0), (["home", "Documents"], 0)]⟩

/-- A screenshot parked under the documents directory; no Screenshots
subdirectory exists yet. -/
def egFSdoc : FS :=
  ⟨[(["home", "Documents", "shot.png"], ⟨0, "IMG"⟩)],
   [([], 0), (["tmp"], 0), (["home"], 0), (["home", "Pictures"], 0),
    (["home", "Documents"], 0)]⟩

/-- A screenshot parked under the pictures directory; no Screenshots
subdirectory exists yet. -/
def egFSpic : FS :=
  ⟨[(["home", "Pictures", "shot.png"], ⟨0, "IMG"⟩)],
   [([], 0), (["tmp"], 0), (["home"], 0), (["home", "Pictures"], 0),
    (["home", "Documents"], 0)]⟩

/-- A fixed timestamp. -/
def egNow : DateTime := ⟨2026, 10, 12, 9, 5, 3⟩

/-- Environment answering the capture request with a `file` URI at `rp`. -/
def egEnvFile (rp : Path) : Env :=
  ⟨some ["home", "Pictures"], some ["home", "Documents"], egNow, true,
   .ok ⟨"file", some rp⟩, false, true, true⟩

/-- Environment answering with an URI of an unrecognized scheme. -/
def egEnvHttp : Env :=
  ⟨some ["home", "Pictures"], some ["home", "Documents"], egNow, true,
   .ok ⟨"http", none⟩, false, true, true⟩

/-- Environment answering with a `clipboard` URI. -/
def egEnvClip : Env :=
  ⟨some ["home", "Pictures"], some ["home", "Documents"], egNow, true,
   .ok ⟨"clipboard", none⟩, false, true, true⟩

/-- Environment answering with a portal error carrying message `e`. -/
def egEnvErr (e : String) : Env :=
  ⟨some ["home", "Pictures"], some ["home", "Documents"], egNow, true,
   .error e, false, true, true⟩

/-- The state after the non-interactive save-dir fallback ran on `egFSdoc`:
the Screenshots directory has been created and the creation traced. -/
def egSt1 : St :=
  ⟨⟨egFSdoc.files, egFSdoc.dirs ++ [(["home", "Pictures", "Screenshots"], 0)]⟩,
   [.fsOp (.createDirAll ["home", "Pictures", "Screenshots"])], [], []⟩

/-- The notification the program sends for a clipboard capture. -/
def egClipNotification : Notification :=
  ⟨.localized .cosmicScreenshot, 0, "com.system76.CosmicScreenshot",
   .localized .screenshotSavedToClipboard, .plain "", [], true, 5000⟩

/-! Helper lemmas about the filesystem model. -/

theorem assocFind_append {α : Type} (p : Path) (l l2 : List (Path × α)) (v : α)
    (h : assocFind p l = some v) : assocFind p (l ++ l2) = some v := by
  induction l with
  | nil => simp [assocFind] at h
  | cons hd tl ih =>
    obtain ⟨q, w⟩ := hd
    by_cases hq : q = p
    · simpa [assocFind, hq] using h
    · simp only [assocFind, if_neg hq] at h
      simpa [assocFind, if_neg hq] using ih h

theorem assocFind_append_self {α : Type} (p : Path) (l : List (Path × α)) (v : α)
    (h : assocFind p l = none) : assocFind p (l ++ [(p, v)]) = some v := by
  induction l with
  | nil => simp [assocFind]
  | cons hd tl ih =>
    obtain ⟨q, w⟩ := hd
    by_cases hq : q = p
    · simp [assocFind, hq] at h
    · simp only [assocFind, if_neg hq, List.cons_append] at h ⊢
      exact ih h

theorem mkDirStep_isDir_pres (fs fs' : FS) (q d : Path)
    (h : fs.mkDirStep q = some fs') (hd : fs.isDir d = true) : fs'.isDir d = true := by
  unfold FS.mkDirStep at h
  split at h
  · simp at h
  · split at h
    · cases h
      exact hd
    · split at h
      · simp at h
      · split at h
        · cases h
          unfold FS.isDir FS.dirDev at hd ⊢
          cases hv : assocFind d fs.dirs with
          | none => rw [hv] at hd; simp at hd
          | some v => simp [assocFind_append d fs.dirs _ v hv]
        · simp at h

theorem mkDirStep_isDir_self (fs fs' : FS) (q : Path)
    (h : fs.mkDirStep q = some fs') : fs'.isDir q = true := by
  unfold FS.mkDirStep at h
  split at h
  · simp at h
  · split at h
    · next hdir =>
      cases h
      exact hdir
    · next hdir =>
      split at h
      · simp at h
      · split at h
        · cases h
          have hnone : assocFind q fs.dirs = none := by
            unfold FS.isDir FS.dirDev at hdir
            cases hv : assocFind q fs.dirs with
            | none => rfl
            | some v => rw [hv] at hdir; simp at hdir
          unfold FS.isDir FS.dirDev
          simp [assocFind_append_self q fs.dirs _ hnone]
        · simp at h

theorem createAlong_isDir_pres (l : List Path) (fs fs' : FS) (d : Path)
    (h : createAlong fs l = some fs') (hd : fs.isDir d = true) : fs'.isDir d = true := by
  induction l generalizing fs with
  | nil =>
    simp only [createAlong] at h
    cases h
    exact hd
  | cons q rest ih =>
    simp only [createAlong] at h
    cases hstep : fs.mkDirStep q with
    | none => rw [hstep] at h; simp at h
    | some fs1 =>
      rw [hstep] at h
      exact ih fs1 h (mkDirStep_isDir_pres fs fs1 q d hstep hd)

theorem createAlong_last (l : List Path) (fs fs' : FS) (q : Path)
    (h : createAlong fs (l ++ [q]) = some fs') : fs'.isDir q = true := by
  induction l generalizing fs with
  | nil =>
    simp only [List.nil_append, createAlong] at h
    cases hstep : fs.mkDirStep q with
    | none => rw [hstep] at h; simp at h
    | some fs1 =>
      rw [hstep] at h
      simp only [createAlong] at h
      cases h
      exact mkDirStep_isDir_self fs _ q hstep
  | cons a rest ih =>
    simp only [List.cons_append, createAlong] at h
    cases hstep : fs.mkDirStep a with
    | none => rw [hstep] at h; simp at h
    | some fs1 => rw [hstep] at h; exact ih fs1 h

theorem pathPrefixes_eq (p : Path) :
    pathPrefixes p = (List.range p.length).map (fun n => p.take n) ++ [p] := by
  unfold pathPrefixes
  rw [List.range_succ, List.map_append]
  simp

theorem createDirAll_isDir (fs fs' : FS) (p : Path)
    (h : fs.createDirAll p = some fs') : fs'.isDir p = true := by
  unfold FS.createDirAll at h
  rw [pathPrefixes_eq] at h
  exact createAlong_last _ _ _ _ h

theorem createDirAll_isDir_pres (fs fs' : FS) (p d : Path)
    (h : fs.createDirAll p = some fs') (hd : fs.isDir d = true) : fs'.isDir d = true :=
  createAlong_isDir_pres _ _ _ _ h hd

theorem renameFile_dirs (fs fs' : FS) (s d : Path) (h : fs.renameFile s d = some fs') :
    fs'.dirs = fs.dirs := by
  unfold FS.renameFile at h
  repeat' split at h
  all_goals first
  | (cases h; rfl)
  | simp_all

theorem copyFile_dirs (fs fs' : FS) (s d : Path) (h : fs.copyFile s d = some fs') :
    fs'.dirs = fs.dirs := by
  unfold FS.copyFile at h
  repeat' split at h
  all_goals first
  | (cases h; rfl)
  | simp_all

theorem removeFile_dirs (fs fs' : FS) (s : Path) (h : fs.removeFile s = some fs') :
    fs'.dirs = fs.dirs := by
  unfold FS.removeFile at h
  split at h
  · cases h; rfl
  · simp at h

theorem move_picture_dirs (cf : Bool) (fs : FS) (s d : Path) :
    (move_picture cf fs s d).fs.dirs = fs.dirs := by
  unfold move_picture
  split
  · rfl
  · split
    · rfl
    · split
      · rfl
      · split
        · split
          · rfl
          · rename_i fs1 hr
            exact renameFile_dirs fs fs1 s d hr
        · split
          · rfl
          · rename_i fs1 hc
            have h1 : fs1.dirs = fs.dirs := by
              cases cf with
              | true => simp at hc
              | false =>
                simp only [Bool.false_eq_true, if_false] at hc
                exact copyFile_dirs fs fs1 s d hc
            split
            · exact h1
            · rename_i fs2 hrm
              rw [removeFile_dirs fs1 fs2 s hrm]
              exact h1

theorem sentNotifications_append (l1 l2 : List Event) :
    sentNotifications (l1 ++ l2) = sentNotifications l1 ++ sentNotifications l2 := by
  induction l1 with
  | nil => rfl
  | cons e rest ih => cases e <;> simp [sentNotifications, ih]

theorem getLast_append_single {α : Type} (l : List α) (a : α) :
    (l ++ [a]).getLast? = some a := by
  induction l with
  | nil => rfl
  | cons b rest ih =>
    rw [List.cons_append]
    cases hr : rest ++ [a] with
    | nil => exact absurd hr (by simp)
    | cons c t =>
      rw [List.getLast?_cons_cons, ← hr]
      exact ih

theorem isMkdir_not_fileMove (e : Event) (h : e.isMkdir = true) : e.isFileMove = false := by
  cases e with
  | fsOp op => cases op <;> first | rfl | simp [Event.isMkdir] at h
  | captureRequest => rfl
  | busConnect => rfl
  | notifySend n => rfl

theorem sentNotifications_eq_nil (t : List Event) (h : ∀ e ∈ t, e.isMkdir = true) :
    sentNotifications t = [] := by
  induction t with
  | nil => rfl
  | cons e rest ih =>
    have he := h e (by simp)
    have hrest : sentNotifications rest = [] := ih (fun x hx => h x (by simp [hx]))
    cases e with
    | fsOp op => simpa [sentNotifications] using hrest
    | captureRequest => simpa [sentNotifications] using hrest
    | busConnect => simpa [sentNotifications] using hrest
    | notifySend n => simp [Event.isMkdir] at he

theorem mem_map_fsOp (l : List FsOp) (e : Event) (he : e ∈ l.map Event.fsOp) :
    e.isFsOp = true := by
  obtain ⟨op, _, rfl⟩ := List.mem_map.mp he
  rfl

/-! Characterizations of the pipeline stages. -/

theorem stepSaveDir_inr (args : Args) (env : Env) (fs : FS) (st1 : St) (sd : Option Path)
    (h : stepSaveDir args env (initSt fs) = .inr (st1, sd)) :
    st1.stdout = [] ∧ st1.stderr = [] ∧ ∀ e ∈ st1.trace, e.isMkdir = true := by
  unfold stepSaveDir at h
  simp only [initSt, emit] at h
  split at h
  · cases h
    exact ⟨rfl, rfl, by intro e he; simp at he⟩
  · split at h
    · cases h
      exact ⟨rfl, rfl, by intro e he; simp at he⟩
    · split at h
      · simp at h
      · split at h
        · simp at h
        · cases h
          refine ⟨rfl, rfl, ?_⟩
          intro e he
          simp at he
          subst he
          rfl

theorem stepSaveDir_inl (args : Args) (env : Env) (fs : FS) (r : RunResult)
    (h : stepSaveDir args env (initSt fs) = .inl r) :
    r.savedPath = none ∧ ∀ e ∈ r.st.trace, e.isMkdir = true := by
  unfold stepSaveDir at h
  simp only [initSt, emit] at h
  split at h
  · simp at h
  · split at h
    · simp at h
    · split at h
      · cases h
        exact ⟨rfl, by intro e he; simp at he⟩
      · split at h
        · cases h
          refine ⟨rfl, ?_⟩
          intro e he
          simp at he
          subst he
          rfl
        · simp at h

theorem stepSaveDir_fallback (args : Args) (env : Env) (fs : FS) (pics : Path) (st1 : St)
    (sd : Option Path)
    (hi : args.interactive = false)
    (hv : validSaveDir fs args.save_dir = none)
    (hp : env.picturesDir = some pics)
    (hok : stepSaveDir args env (initSt fs) = .inr (st1, sd)) :
    sd = some (Path.join pics "Screenshots")
    ∧ st1.trace = [Event.fsOp (FsOp.createDirAll (Path.join pics "Screenshots"))]
    ∧ fs.createDirAll (Path.join pics "Screenshots") = some st1.fs
    ∧ st1.stdout = [] ∧ st1.stderr = [] := by
  unfold stepSaveDir at hok
  rw [hi] at hok
  simp only [Bool.false_eq_true, if_false, initSt, emit] at hok
  simp only [hv, hp] at hok
  cases hda : fs.createDirAll (Path.join pics "Screenshots") with
  | none =>
    rw [hda] at hok
    simp at hok
  | some fs2 =>
    rw [hda] at hok
    simp only [Sum.inr.injEq, Prod.mk.injEq] at hok
    obtain ⟨h1, h2⟩ := hok
    subst h2
    subst h1
    exact ⟨rfl, rfl, rfl, rfl, rfl⟩

theorem stepCapture_inr (env : Env) (st st' : St) (uri : Uri)
    (h : stepCapture env st = .inr (st', uri)) :
    st' = emit st .captureRequest ∧ env.response = .ok uri := by
  unfold stepCapture at h
  simp only [emit] at h
  split at h
  · simp at h
  · split at h
    · split at h
      · simp at h
      · simp at h
    · rename_i u heq
      cases h
      exact ⟨rfl, heq⟩

theorem stepCapture_inl (env : Env) (st : St) (r : RunResult)
    (h : stepCapture env st = .inl r) :
    r.savedPath = none ∧ r.st.trace = st.trace ++ [Event.captureRequest] ∧ r.st.fs = st.fs := by
  unfold stepCapture at h
  simp only [emit] at h
  split at h
  · cases h
    exact ⟨rfl, rfl, rfl⟩
  · split at h
    · split at h
      · cases h
        exact ⟨rfl, rfl, rfl⟩
      · cases h
        exact ⟨rfl, rfl, rfl⟩
    · simp at h

theorem stepCapture_ok (env : Env) (st : St) (uri : Uri)
    (hsend : env.sendOk = true) (hresp : env.response = .ok uri) :
    stepCapture env st = .inr (emit st .captureRequest, uri) := by
  unfold stepCapture
  rw [hsend, hresp]
  rfl

theorem stepPath_clipboard (sd : Option Path) (env : Env) (st : St) (uri : Uri)
    (hs : uri.scheme = "clipboard") :
    stepPath sd env st uri = .inr (st, "") := by
  unfold stepPath
  rw [hs, if_neg (by decide), if_pos rfl]

theorem stepPath_other (sd : Option Path) (env : Env) (st : St) (uri : Uri)
    (hf : uri.scheme ≠ "file") (hc : uri.scheme ≠ "clipboard") :
    stepPath sd env st uri = .inl ⟨st, .panicked ("unsupported scheme " ++ uri.scheme), none⟩ := by
  unfold stepPath
  rw [if_neg hf, if_neg hc]

theorem isDir_congr (fs1 fs2 : FS) (d : Path) (h : fs1.dirs = fs2.dirs) :
    fs1.isDir d = fs2.isDir d := by
  unfold FS.isDir FS.dirDev
  rw [h]

theorem stepPath_inl (sd : Option Path) (env : Env) (st : St) (uri : Uri) (r : RunResult)
    (h : stepPath sd env st uri = .inl r) :
    r.savedPath = none
    ∧ (∀ dp, st.fs.isDir dp = true → r.st.fs.isDir dp = true)
    ∧ ∃ extra, r.st.trace = st.trace ++ extra ∧ ∀ e ∈ extra, e.isFsOp = true := by
  unfold stepPath at h
  simp only [emit] at h
  split at h
  · split at h
    · cases h
      exact ⟨rfl, fun dp hdp => hdp, [], by simp, by intro e he; simp at he⟩
    · split at h
      · cases h
        exact ⟨rfl, fun dp hdp => hdp, [], by simp, by intro e he; simp at he⟩
      · split at h
        · cases h
          exact ⟨rfl, fun dp hdp => hdp, [], by simp, by intro e he; simp at he⟩
        · split at h
          · cases h
            refine ⟨rfl, fun dp hdp => hdp, _, rfl, ?_⟩
            intro e he
            simp at he
            subst he
            rfl
          · split at h
            · cases h
              rename_i fs2 hda mopt m hpm
              refine ⟨rfl, ?_, _, List.append_assoc _ _ _, ?_⟩
              · intro dp hdp
                rw [isDir_congr _ fs2 dp (move_picture_dirs _ _ _ _)]
                exact createDirAll_isDir_pres _ _ _ _ hda hdp
              · intro e he
                rcases List.mem_append.mp he with h1 | h1
                · simp at h1
                  subst h1
                  rfl
                · exact mem_map_fsOp _ _ h1
            · simp at h
  · split at h
    · simp at h
    · cases h
      exact ⟨rfl, fun dp hdp => hdp, [], by simp, by intro e he; simp at he⟩

theorem stepPath_inr (sd : Option Path) (env : Env) (st st' : St) (uri : Uri) (p : String)
    (h : stepPath sd env st uri = .inr (st', p)) :
    st'.stdout = st.stdout ∧ st'.stderr = st.stderr
    ∧ (∀ dp, st.fs.isDir dp = true → st'.fs.isDir dp = true)
    ∧ ∃ extra, st'.trace = st.trace ++ extra ∧ ∀ e ∈ extra, e.isFsOp = true := by
  unfold stepPath at h
  simp only [emit] at h
  split at h
  · split at h
    · simp at h
    · split at h
      · simp at h
      · split at h
        · simp at h
        · split at h
          · simp at h
          · split at h
            · simp at h
            · cases h
              rename_i fs2 hda mopt hpm
              refine ⟨rfl, rfl, ?_, _, List.append_assoc _ _ _, ?_⟩
              · intro dp hdp
                rw [isDir_congr _ fs2 dp (move_picture_dirs _ _ _ _)]
                exact createDirAll_isDir_pres _ _ _ _ hda hdp
              · intro e he
                rcases List.mem_append.mp he with h1 | h1
                · simp at h1
                  subst h1
                  rfl
                · exact mem_map_fsOp _ _ h1
  · split at h
    · cases h
      exact ⟨rfl, rfl, fun dp hdp => hdp, [], by simp, by intro e he; simp at he⟩
    · simp at h

theorem stepCapture_err_cancel (env : Env) (st : St) (err : String)
    (hsend : env.sendOk = true) (hresp : env.response = .error err)
    (hc : strContains err "Cancelled" = true) :
    stepCapture env st
      = .inl ⟨{ emit st .captureRequest with stdout := st.stdout ++ ["Screenshot cancelled by user"] },
          .exited 0, none⟩ := by
  unfold stepCapture
  rw [hsend, hresp]
  simp only [Bool.not_true, Bool.false_eq_true, if_false, emit]
  rw [hc]
  rfl

theorem stepCapture_err_other (env : Env) (st : St) (err : String)
    (hsend : env.sendOk = true) (hresp : env.response = .error err)
    (hc : strContains err "Cancelled" = false) :
    stepCapture env st
      = .inl ⟨{ emit st .captureRequest with stderr := st.stderr ++ ["Error taking screenshot: " ++ err] },
          .exited 1, none⟩ := by
  unfold stepCapture
  rw [hsend, hresp]
  simp only [Bool.not_true, Bool.false_eq_true, if_false, emit]
  rw [hc]
  rfl

theorem stepFinish_no_notify (args : Args) (env : Env) (st : St) (p : String)
    (hn : args.notify = false) :
    stepFinish args env st p
      = ⟨{ st with stdout := st.stdout ++ [p] }, .exited 0, some p⟩ := by
  unfold stepFinish
  rw [hn]
  rfl

theorem stepFinish_notify_busfail (args : Args) (env : Env) (st : St) (p : String)
    (hn : args.notify = true) (hb : env.busOk = false) :
    stepFinish args env st p
      = ⟨emit { st with stdout := st.stdout ++ [p] } .busConnect,
         .panicked "failed to connect to session bus", some p⟩ := by
  unfold stepFinish
  rw [hn, hb]
  rfl

theorem stepFinish_notify_empty (args : Args) (env : Env) (st : St)
    (hn : args.notify = true) (hb : env.busOk = true) :
    stepFinish args env st ""
      = ⟨emit (emit { st with stdout := st.stdout ++ [""] } .busConnect)
            (.notifySend egClipNotification),
         (if env.notifyOk then .exited 0 else .panicked "failed to send notification"), some ""⟩ := by
  unfold stepFinish
  rw [hn, hb]
  cases hnot : env.notifyOk with
  | true => rfl
  | false => rfl

theorem stepFinish_fs (args : Args) (env : Env) (st : St) (p : String) :
    (stepFinish args env st p).st.fs = st.fs := by
  unfold stepFinish
  simp only [emit]
  split
  · split
    · rfl
    · split <;> rfl
  · rfl

theorem stepFinish_trace (args : Args) (env : Env) (st : St) (p : String) :
    ∃ extra, (stepFinish args env st p).st.trace = st.trace ++ extra := by
  unfold stepFinish
  simp only [emit]
  split
  · split
    · exact ⟨[.busConnect], rfl⟩
    · split
      · exact ⟨_, List.append_assoc _ _ _⟩
      · exact ⟨_, List.append_assoc _ _ _⟩
  · exact ⟨[], by simp⟩

theorem takeWhile_pair {α : Type} [DecidableEq α] (a b : α) (t : List α) (hab : a ≠ b) :
    (a :: b :: t).takeWhile (fun e => decide (e ≠ b)) = [a] := by
  simp [List.takeWhile_cons, hab]

/-! Claim theorems: concrete evaluations and counterexamples. -/

/-- C1: evaluation of `move_picture` at the failing input.  On a same-device
pair the code performs a copy followed by a delete (no rename), and on a
cross-device pair it attempts a rename, which fails; the device-equality
condition of the claim is inverted in the code. -/
theorem C1_device_condition_inverted :
    (egFS.metadataDev ["tmp", "shot.png"] = some 0
      ∧ egFS.metadataDev ["home", "Pictures", "Screenshots"] = some 0
      ∧ (move_picture false egFS ["tmp", "shot.png"]
          ["home", "Pictures", "Screenshots", "s.png"]).ops
        = [FsOp.copy ["tmp", "shot.png"] ["home", "Pictures", "Screenshots", "s.png"],
           FsOp.removeFile ["tmp", "shot.png"]]
      ∧ (move_picture false egFS ["tmp", "shot.png"]
          ["home", "Pictures", "Screenshots", "s.png"]).panicMsg = none)
    ∧ (egFSx.metadataDev ["tmp", "shot.png"] = some 1
      ∧ egFSx.metadataDev ["home", "Pictures", "Screenshots"] = some 0
      ∧ (move_picture false egFSx ["tmp", "shot.png"]
          ["home", "Pictures", "Screenshots", "s.png"]).ops
        = [FsOp.rename ["tmp", "shot.png"] ["home", "Pictures", "Screenshots", "s.png"]]
      ∧ (move_picture false egFSx ["tmp", "shot.png"]
          ["home", "Pictures", "Screenshots", "s.png"]).panicMsg
        = some "Failed to move screenshot.") := by
  decide

/-- C2: evaluation of the run at the failing input.  For a source under
neither well-known directory the code resolves the destination directory to
the source file path itself, not to its containing directory, and the
subsequent directory creation panics because a regular file sits at that
path; the filesystem is left unchanged and nothing is renamed in place. -/
theorem C2_fallback_is_source_path :
    resolveTargetDir none ["home", "Pictures"] ["home", "Documents"] ["tmp", "shot.png"]
        = ["tmp", "shot.png"]
    ∧ Path.parent ["tmp", "shot.png"] = some ["tmp"]
    ∧ (runMain {} (egEnvFile ["tmp", "shot.png"]) egFS).exit
        = RunExit.panicked "Failed to create directory /tmp/shot.png"
    ∧ (runMain {} (egEnvFile ["tmp", "shot.png"]) egFS).st.fs = egFS
    ∧ (runMain {} (egEnvFile ["tmp", "shot.png"]) egFS).savedPath = none := by
  decide

/-- C3 counterexample: a non-interactive invocation without a save directory
whose source lies under the documents directory still lands the file in
`<pictures>/Screenshots`, not in the documents directory as the claim
requires. -/
theorem C3_counterexample :
    Path.startsWith ["home", "Documents", "shot.png"] ["home", "Documents"] = true
    ∧ (runMain { interactive := false, notify := false }
        (egEnvFile ["home", "Documents", "shot.png"]) egFSdoc).exit = RunExit.exited 0
    ∧ (runMain { interactive := false, notify := false }
        (egEnvFile ["home", "Documents", "shot.png"]) egFSdoc).st.fs.fileData
        ["home", "Pictures", "Screenshots", "Screenshot_2026-10-12_09-05-03.png"]
      = some ⟨0, "IMG"⟩
    ∧ (runMain { interactive := false, notify := false }
        (egEnvFile ["home", "Documents", "shot.png"]) egFSdoc).st.fs.fileData
        ["home", "Documents", "Screenshot_2026-10-12_09-05-03.png"] = none := by
  decide

/-- C4 counterexample: with `interactive=false` and no save directory, a
response with an unrecognized scheme does abort, but only after the fallback
Screenshots directory was already created, so a filesystem mutation has
occurred before the abort. -/
theorem C4_counterexample :
    (runMain { interactive := false } egEnvHttp egFSdoc).exit
        = RunExit.panicked "unsupported scheme http"
    ∧ egFSdoc.isDir ["home", "Pictures", "Screenshots"] = false
    ∧ (runMain { interactive := false } egEnvHttp egFSdoc).st.fs.isDir
        ["home", "Pictures", "Screenshots"] = true := by
  decide

/-- C7 counterexample: for a clipboard capture the notification's BODY is the
empty path string, not the saved-to-clipboard message; that message is carried
by the notification's summary. -/
theorem C7_counterexample :
    sentNotifications (runMain {} egEnvClip egFS).st.trace = [egClipNotification]
    ∧ egClipNotification.summary = NotifyText.localized MessageKey.screenshotSavedToClipboard
    ∧ egClipNotification.body ≠ NotifyText.localized MessageKey.screenshotSavedToClipboard
    ∧ egClipNotification.body = NotifyText.plain "" := by
  decide

/-- C8: the destination path always ends in the generated
`Screenshot_<year>-<month>-<day>_<hour>-<minute>-<second>.png` filename built
from the wall-clock timestamp of the resolution, and the final filename
component is independent of the source file's own name. -/
theorem C8_generated_filename (sd : Option Path) (pics docs rp d : Path)
    (n1 n2 : String) (now : DateTime) :
    (targetImgPath sd pics docs rp now).getLast? = some (screenshotFilename now)
    ∧ (targetImgPath sd pics docs (Path.join d n1) now).getLast?
        = (targetImgPath sd pics docs (Path.join d n2) now).getLast? := by
  constructor
  · exact getLast_append_single _ _
  · exact (getLast_append_single _ (screenshotFilename now)).trans
      (getLast_append_single _ (screenshotFilename now)).symm

theorem runMain_eq (args : Args) (env : Env) (fs : FS) (st1 : St) (sd : Option Path)
    (hok : stepSaveDir args env (initSt fs) = .inr (st1, sd)) :
    runMain args env fs
      = (match stepCapture env st1 with
         | .inl r => r
         | .inr (st, uri) =>
           match stepPath sd env st uri with
           | .inl r => r
           | .inr (st, path) => stepFinish args env st path) := by
  unfold runMain
  rw [hok]

/-- C3 (amended): for every invocation with interactive=false and no valid
save_dir, the settings resolution yields `<pictures>/Screenshots` as the save
directory, creating it, and this eagerly resolved directory is ALWAYS the
resolved destination directory, regardless of whether the source path lies
under the pictures or the documents directory: the prefix-based selection is
preempted and the documents branch is unreachable in this mode. -/
theorem C3_non_interactive_destination (args : Args) (env : Env) (fs : FS) (pics : Path)
    (st1 : St) (sd : Option Path)
    (hi : args.interactive = false)
    (hv : validSaveDir fs args.save_dir = none)
    (hp : env.picturesDir = some pics)
    (hok : stepSaveDir args env (initSt fs) = .inr (st1, sd)) :
    sd = some (Path.join pics "Screenshots")
    ∧ st1.fs.isDir (Path.join pics "Screenshots") = true
    ∧ ∀ docs rp, resolveTargetDir sd pics docs rp = Path.join pics "Screenshots" := by
  obtain ⟨h1, _, h3, _, _⟩ := stepSaveDir_fallback args env fs pics st1 sd hi hv hp hok
  subst h1
  exact ⟨rfl, createDirAll_isDir _ _ _ h3, fun docs rp => rfl⟩

/-- C3 witness: hypotheses discharged on a concrete non-interactive run whose
source lies under the documents directory. -/
theorem C3_witness :
    stepSaveDir { interactive := false, notify := false }
        (egEnvFile ["home", "Documents", "shot.png"]) (initSt egFSdoc)
      = .inr (egSt1, some (Path.join ["home", "Pictures"] "Screenshots"))
    ∧ egSt1.fs.isDir (Path.join ["home", "Pictures"] "Screenshots") = true
    ∧ resolveTargetDir (some (Path.join ["home", "Pictures"] "Screenshots"))
        ["home", "Pictures"] ["home", "Documents"] ["home", "Documents", "shot.png"]
      = Path.join ["home", "Pictures"] "Screenshots" :=
  ⟨by decide,
   (C3_non_interactive_destination { interactive := false, notify := false }
      (egEnvFile ["home", "Documents", "shot.png"]) egFSdoc ["home", "Pictures"] egSt1
      (some (Path.join ["home", "Pictures"] "Screenshots")) rfl rfl rfl (by decide)).2.1,
   (C3_non_interactive_destination { interactive := false, notify := false }
      (egEnvFile ["home", "Documents", "shot.png"]) egFSdoc ["home", "Pictures"] egSt1
      (some (Path.join ["home", "Pictures"] "Screenshots")) rfl rfl rfl (by decide)).2.2
     ["home", "Documents"] ["home", "Documents", "shot.png"]⟩

/-- C4 (amended): a response whose scheme is neither `file` nor `clipboard`
makes the run abort with the unsupported-scheme panic; no file is moved,
copied or deleted anywhere in the run, and the filesystem and trace after the
abort are exactly those left by the settings resolution plus the capture
request — so the only possible prior mutation is the pre-request creation of
the fallback Screenshots directory. -/
theorem C4_unknown_scheme_aborts (args : Args) (env : Env) (fs : FS) (uri : Uri)
    (st1 : St) (sd : Option Path)
    (hsend : env.sendOk = true)
    (hresp : env.response = .ok uri)
    (hf : uri.scheme ≠ "file")
    (hc : uri.scheme ≠ "clipboard")
    (hok : stepSaveDir args env (initSt fs) = .inr (st1, sd)) :
    (runMain args env fs).exit = .panicked ("unsupported scheme " ++ uri.scheme)
    ∧ (runMain args env fs).st.fs = st1.fs
    ∧ (runMain args env fs).st.trace = st1.trace ++ [Event.captureRequest]
    ∧ ∀ e ∈ (runMain args env fs).st.trace, e.isFileMove = false := by
  obtain ⟨_, _, hmk⟩ := stepSaveDir_inr args env fs st1 sd hok
  have hrm0 := runMain_eq args env fs st1 sd hok
  simp only [stepCapture_ok env st1 uri hsend hresp] at hrm0
  simp only [stepPath_other sd env (emit st1 .captureRequest) uri hf hc] at hrm0
  rw [hrm0]
  refine ⟨rfl, rfl, rfl, ?_⟩
  intro e he
  simp [emit] at he
  rcases he with he | he
  · exact isMkdir_not_fileMove e (hmk e he)
  · subst he
    rfl

/-- C4 witness: hypotheses discharged on a concrete non-interactive run with
an `http` scheme response. -/
theorem C4_witness :
    (egEnvHttp.sendOk = true ∧ egEnvHttp.response = .ok ⟨"http", none⟩
      ∧ ("http" : String) ≠ "file" ∧ ("http" : String) ≠ "clipboard"
      ∧ stepSaveDir { interactive := false } egEnvHttp (initSt egFSdoc)
          = .inr (egSt1, some (Path.join ["home", "Pictures"] "Screenshots")))
    ∧ (runMain { interactive := false } egEnvHttp egFSdoc).exit
        = .panicked ("unsupported scheme " ++ "http") :=
  ⟨⟨rfl, rfl, by decide, by decide, by decide⟩,
   (C4_unknown_scheme_aborts { interactive := false } egEnvHttp egFSdoc ⟨"http", none⟩ egSt1
      (some (Path.join ["home", "Pictures"] "Screenshots")) rfl rfl (by decide) (by decide)
      (by decide)).1⟩

/-- C5: on a cross-device pair (source file and destination parent directory
on different devices) `move_picture` aborts with the source left untouched:
the filesystem is unchanged, no deletion of the source is attempted, and no
copy is attempted either — the attempted rename fails (EXDEV) before any
mutation.  In particular the destination is not created and the source still
holds its original content. -/
theorem C5_cross_device_source_untouched (fs : FS) (src dst pd : Path) (a b : Nat) (c : String)
    (copyFails : Bool)
    (hsrc : fs.fileData src = some ⟨a, c⟩)
    (hpar : Path.parent dst = some pd)
    (hpdfile : fs.fileData pd = none)
    (hpddir : fs.dirDev pd = some b)
    (hdev : a ≠ b) :
    (move_picture copyFails fs src dst).panicMsg = some "Failed to move screenshot."
    ∧ (move_picture copyFails fs src dst).fs = fs
    ∧ FsOp.removeFile src ∉ (move_picture copyFails fs src dst).ops
    ∧ FsOp.copy src dst ∉ (move_picture copyFails fs src dst).ops
    ∧ (move_picture copyFails fs src dst).fs.fileData src = some ⟨a, c⟩ := by
  have hmd : fs.metadataDev src = some a := by
    unfold FS.metadataDev
    simp only [hsrc]
  have hmdd : fs.metadataDev pd = some b := by
    unfold FS.metadataDev
    simp only [hpdfile, hpddir]
  have hr : fs.renameFile src dst = none := by
    unfold FS.renameFile
    simp only [hsrc, hpar, hpddir]
    rw [if_pos hdev]
  have hmain : move_picture copyFails fs src dst
      = ⟨fs, [FsOp.rename src dst], some "Failed to move screenshot."⟩ := by
    unfold move_picture
    simp only [hmd, hpar, hmdd]
    rw [if_pos hdev, hr]
  rw [hmain]
  refine ⟨rfl, rfl, ?_, ?_, hsrc⟩
  · simp
  · simp

/-- C5 witness: hypotheses discharged on a concrete filesystem with `/tmp` on
device 1 and the pictures tree on device 0, with the copy fault injected. -/
theorem C5_witness :
    (egFSx.fileData ["tmp", "shot.png"] = some ⟨1, "IMG"⟩
      ∧ Path.parent ["home", "Pictures", "Screenshots", "s.png"]
          = some ["home", "Pictures", "Screenshots"]
      ∧ egFSx.fileData ["home", "Pictures", "Screenshots"] = none
      ∧ egFSx.dirDev ["home", "Pictures", "Screenshots"] = some 0
      ∧ (1 : Nat) ≠ 0)
    ∧ ((move_picture true egFSx ["tmp", "shot.png"]
          ["home", "Pictures", "Screenshots", "s.png"]).panicMsg
        = some "Failed to move screenshot."
      ∧ (move_picture true egFSx ["tmp", "shot.png"]
          ["home", "Pictures", "Screenshots", "s.png"]).fs = egFSx
      ∧ FsOp.removeFile ["tmp", "shot.png"]
          ∉ (move_picture true egFSx ["tmp", "shot.png"]
              ["home", "Pictures", "Screenshots", "s.png"]).ops
      ∧ FsOp.copy ["tmp", "shot.png"] ["home", "Pictures", "Screenshots", "s.png"]
          ∉ (move_picture true egFSx ["tmp", "shot.png"]
              ["home", "Pictures", "Screenshots", "s.png"]).ops
      ∧ (move_picture true egFSx ["tmp", "shot.png"]
          ["home", "Pictures", "Screenshots", "s.png"]).fs.fileData ["tmp", "shot.png"]
        = some ⟨1, "IMG"⟩) :=
  ⟨⟨by decide, by decide, by decide, by decide, by decide⟩,
   C5_cross_device_source_untouched egFSx ["tmp", "shot.png"]
     ["home", "Pictures", "Screenshots", "s.png"] ["home", "Pictures", "Screenshots"] 1 0 "IMG"
     true (by decide) (by decide) (by decide) (by decide) (by decide)⟩

/-- C6: for an error response from the portal, a message containing
"Cancelled" makes the program print the cancellation notice to standard
output and exit 0 with nothing on standard error, while any other portal
error is printed to standard error with exit status 1 and nothing further on
standard output. -/
theorem C6_portal_error_handling (args : Args) (env : Env) (fs : FS) (err : String)
    (st1 : St) (sd : Option Path)
    (hsend : env.sendOk = true)
    (hresp : env.response = .error err)
    (hok : stepSaveDir args env (initSt fs) = .inr (st1, sd)) :
    (strContains err "Cancelled" = true →
      (runMain args env fs).exit = .exited 0
      ∧ (runMain args env fs).st.stdout = ["Screenshot cancelled by user"]
      ∧ (runMain args env fs).st.stderr = [])
    ∧ (strContains err "Cancelled" = false →
      (runMain args env fs).exit = .exited 1
      ∧ (runMain args env fs).st.stderr = ["Error taking screenshot: " ++ err]
      ∧ (runMain args env fs).st.stdout = []) := by
  obtain ⟨ho, he, _⟩ := stepSaveDir_inr args env fs st1 sd hok
  have hrm0 := runMain_eq args env fs st1 sd hok
  constructor
  · intro hcan
    rw [stepCapture_err_cancel env st1 err hsend hresp hcan] at hrm0
    rw [hrm0]
    refine ⟨rfl, ?_, ?_⟩
    · show st1.stdout ++ ["Screenshot cancelled by user"] = ["Screenshot cancelled by user"]
      rw [ho]
      rfl
    · show (emit st1 .captureRequest).stderr = []
      rw [show (emit st1 .captureRequest).stderr = st1.stderr from rfl, he]
  · intro hcan
    rw [stepCapture_err_other env st1 err hsend hresp hcan] at hrm0
    rw [hrm0]
    refine ⟨rfl, ?_, ?_⟩
    · show st1.stderr ++ ["Error taking screenshot: " ++ err] = ["Error taking screenshot: " ++ err]
      rw [he]
      rfl
    · show (emit st1 .captureRequest).stdout = []
      rw [show (emit st1 .captureRequest).stdout = st1.stdout from rfl, ho]

/-- C6 witness: hypotheses discharged on a concrete cancelled portal error. -/
theorem C6_witness :
    ((egEnvErr "Portal Cancelled by user").sendOk = true
      ∧ (egEnvErr "Portal Cancelled by user").response = .error "Portal Cancelled by user"
      ∧ stepSaveDir {} (egEnvErr "Portal Cancelled by user") (initSt egFS)
          = .inr (initSt egFS, none))
    ∧ ((strContains "Portal Cancelled by user" "Cancelled" = true →
        (runMain {} (egEnvErr "Portal Cancelled by user") egFS).exit = .exited 0
        ∧ (runMain {} (egEnvErr "Portal Cancelled by user") egFS).st.stdout
            = ["Screenshot cancelled by user"]
        ∧ (runMain {} (egEnvErr "Portal Cancelled by user") egFS).st.stderr = [])
      ∧ (strContains "Portal Cancelled by user" "Cancelled" = false →
        (runMain {} (egEnvErr "Portal Cancelled by user") egFS).exit = .exited 1
        ∧ (runMain {} (egEnvErr "Portal Cancelled by user") egFS).st.stderr
            = ["Error taking screenshot: " ++ "Portal Cancelled by user"]
        ∧ (runMain {} (egEnvErr "Portal Cancelled by user") egFS).st.stdout = [])) :=
  ⟨⟨rfl, rfl, by decide⟩,
   C6_portal_error_handling {} (egEnvErr "Portal Cancelled by user") egFS
     "Portal Cancelled by user" (initSt egFS) none rfl rfl (by decide)⟩

/-- C7 (amended): a clipboard-scheme response yields the empty output path:
the printed path is the empty string, no path resolution or relocation is
attempted (the filesystem is untouched after the settings resolution and the
trace holds no move, copy or delete), and the notification, when one is sent,
is distinguished by its SUMMARY being the saved-to-clipboard message, with
the empty path as its body — the body does not carry the clipboard message. -/
theorem C7_clipboard_no_relocation (args : Args) (env : Env) (fs : FS) (uri : Uri)
    (st1 : St) (sd : Option Path)
    (hsend : env.sendOk = true)
    (hresp : env.response = .ok uri)
    (hs : uri.scheme = "clipboard")
    (hok : stepSaveDir args env (initSt fs) = .inr (st1, sd)) :
    (runMain args env fs).savedPath = some ""
    ∧ (runMain args env fs).st.stdout = [""]
    ∧ (runMain args env fs).st.fs = st1.fs
    ∧ (∀ e ∈ (runMain args env fs).st.trace, e.isFileMove = false)
    ∧ (args.notify = true → env.busOk = true →
        sentNotifications (runMain args env fs).st.trace = [egClipNotification]) := by
  obtain ⟨ho, _, hmk⟩ := stepSaveDir_inr args env fs st1 sd hok
  have hrm0 := runMain_eq args env fs st1 sd hok
  simp only [stepCapture_ok env st1 uri hsend hresp] at hrm0
  simp only [stepPath_clipboard sd env (emit st1 .captureRequest) uri hs] at hrm0
  cases hn : args.notify with
  | false =>
    rw [stepFinish_no_notify args env _ "" hn] at hrm0
    rw [hrm0]
    refine ⟨rfl, ?_, rfl, ?_, ?_⟩
    · show st1.stdout ++ [""] = [""]
      rw [ho]
      rfl
    · intro e he2
      replace he2 : e ∈ st1.trace ++ [Event.captureRequest] := he2
      rcases List.mem_append.mp he2 with hm | hm
      · exact isMkdir_not_fileMove e (hmk e hm)
      · simp at hm
        subst hm
        rfl
    · intro hcon _
      simp at hcon
  | true =>
    cases hb : env.busOk with
    | false =>
      rw [stepFinish_notify_busfail args env _ "" hn hb] at hrm0
      rw [hrm0]
      refine ⟨rfl, ?_, rfl, ?_, ?_⟩
      · show st1.stdout ++ [""] = [""]
        rw [ho]
        rfl
      · intro e he2
        replace he2 : e ∈ (st1.trace ++ [Event.captureRequest]) ++ [Event.busConnect] := he2
        rcases List.mem_append.mp he2 with hm | hm
        · rcases List.mem_append.mp hm with hm2 | hm2
          · exact isMkdir_not_fileMove e (hmk e hm2)
          · simp at hm2
            subst hm2
            rfl
        · simp at hm
          subst hm
          rfl
      · intro _ hcon
        simp at hcon
    | true =>
      rw [stepFinish_notify_empty args env _ hn hb] at hrm0
      rw [hrm0]
      refine ⟨rfl, ?_, rfl, ?_, ?_⟩
      · show st1.stdout ++ [""] = [""]
        rw [ho]
        rfl
      · intro e he2
        replace he2 : e ∈ ((st1.trace ++ [Event.captureRequest]) ++ [Event.busConnect])
            ++ [Event.notifySend egClipNotification] := he2
        rcases List.mem_append.mp he2 with hm | hm
        · rcases List.mem_append.mp hm with hm2 | hm2
          · rcases List.mem_append.mp hm2 with hm3 | hm3
            · exact isMkdir_not_fileMove e (hmk e hm3)
            · simp at hm3
              subst hm3
              rfl
          · simp at hm2
            subst hm2
            rfl
        · simp at hm
          subst hm
          rfl
      · intro _ _
        show sentNotifications (((st1.trace ++ [Event.captureRequest]) ++ [Event.busConnect])
            ++ [Event.notifySend egClipNotification]) = [egClipNotification]
        rw [sentNotifications_append, sentNotifications_append, sentNotifications_append,
          sentNotifications_eq_nil st1.trace hmk]
        rfl

/-- C7 witness: hypotheses discharged on a concrete clipboard run with
notifications enabled. -/
theorem C7_witness :
    (egEnvClip.sendOk = true ∧ egEnvClip.response = .ok ⟨"clipboard", none⟩
      ∧ stepSaveDir {} egEnvClip (initSt egFS) = .inr (initSt egFS, none))
    ∧ (runMain {} egEnvClip egFS).savedPath = some ""
    ∧ (runMain {} egEnvClip egFS).st.stdout = [""]
    ∧ sentNotifications (runMain {} egEnvClip egFS).st.trace = [egClipNotification] :=
  ⟨⟨rfl, rfl, by decide⟩,
   (C7_clipboard_no_relocation {} egEnvClip egFS ⟨"clipboard", none⟩ (initSt egFS) none
      rfl rfl rfl (by decide)).1,
   (C7_clipboard_no_relocation {} egEnvClip egFS ⟨"clipboard", none⟩ (initSt egFS) none
      rfl rfl rfl (by decide)).2.1,
   (C7_clipboard_no_relocation {} egEnvClip egFS ⟨"clipboard", none⟩ (initSt egFS) none
      rfl rfl rfl (by decide)).2.2.2.2 rfl rfl⟩

/-- C9: with notify=false no session-bus connection is ever attempted in any
run, and whenever the run computes a saved path it prints it as the last
standard-output line and exits with status 0. -/
theorem C9_no_notify_no_bus (args : Args) (env : Env) (fs : FS) (hn : args.notify = false) :
    Event.busConnect ∉ (runMain args env fs).st.trace
    ∧ ∀ p, (runMain args env fs).savedPath = some p →
        ((runMain args env fs).exit = RunExit.exited 0
          ∧ (runMain args env fs).st.stdout.getLast? = some p) := by
  cases h1 : stepSaveDir args env (initSt fs) with
  | inl r =>
    have hrm0 : runMain args env fs = r := by
      unfold runMain
      rw [h1]
    obtain ⟨hsp, hmk⟩ := stepSaveDir_inl args env fs r h1
    rw [hrm0]
    refine ⟨?_, ?_⟩
    · intro hmem
      have hx := hmk _ hmem
      simp [Event.isMkdir] at hx
    · intro p hp
      rw [hsp] at hp
      cases hp
  | inr s =>
    obtain ⟨st1, sd⟩ := s
    obtain ⟨ho1, he1, hmk1⟩ := stepSaveDir_inr args env fs st1 sd h1
    have hrm0 := runMain_eq args env fs st1 sd h1
    cases h2 : stepCapture env st1 with
    | inl r =>
      simp only [h2] at hrm0
      obtain ⟨hsp, htr, _⟩ := stepCapture_inl env st1 r h2
      rw [hrm0]
      refine ⟨?_, ?_⟩
      · intro hmem
        rw [htr] at hmem
        rcases List.mem_append.mp hmem with hm | hm
        · have hx := hmk1 _ hm
          simp [Event.isMkdir] at hx
        · simp at hm
      · intro p hp
        rw [hsp] at hp
        cases hp
    | inr su =>
      obtain ⟨st2, uri⟩ := su
      simp only [h2] at hrm0
      obtain ⟨hst2, _⟩ := stepCapture_inr env st1 st2 uri h2
      cases h3 : stepPath sd env st2 uri with
      | inl r =>
        simp only [h3] at hrm0
        obtain ⟨hsp, _, extra, htr, hfx⟩ := stepPath_inl sd env st2 uri r h3
        rw [hrm0]
        refine ⟨?_, ?_⟩
        · intro hmem
          rw [htr, hst2] at hmem
          replace hmem : Event.busConnect ∈ (st1.trace ++ [Event.captureRequest]) ++ extra := hmem
          rcases List.mem_append.mp hmem with hm | hm
          · rcases List.mem_append.mp hm with hm2 | hm2
            · have hx := hmk1 _ hm2
              simp [Event.isMkdir] at hx
            · simp at hm2
          · have hx := hfx _ hm
            simp [Event.isFsOp] at hx
        · intro p hp
          rw [hsp] at hp
          cases hp
      | inr sp =>
        obtain ⟨st3, p0⟩ := sp
        simp only [h3] at hrm0
        rw [stepFinish_no_notify args env st3 p0 hn] at hrm0
        obtain ⟨_, _, _, extra, htr, hfx⟩ := stepPath_inr sd env st2 st3 uri p0 h3
        rw [hrm0]
        refine ⟨?_, ?_⟩
        · intro hmem
          replace hmem : Event.busConnect ∈ st3.trace := hmem
          rw [htr, hst2] at hmem
          replace hmem : Event.busConnect ∈ (st1.trace ++ [Event.captureRequest]) ++ extra := hmem
          rcases List.mem_append.mp hmem with hm | hm
          · rcases List.mem_append.mp hm with hm2 | hm2
            · have hx := hmk1 _ hm2
              simp [Event.isMkdir] at hx
            · simp at hm2
          · have hx := hfx _ hm
            simp [Event.isFsOp] at hx
        · intro p hp
          replace hp : some p0 = some p := hp
          cases hp
          exact ⟨rfl, getLast_append_single _ _⟩

/-- C9 witness: hypotheses discharged on a concrete notify=false run saving
under the pictures directory. -/
theorem C9_witness :
    ({ notify := false } : Args).notify = false
    ∧ Event.busConnect
        ∉ (runMain { notify := false } (egEnvFile ["home", "Pictures", "shot.png"])
            egFSpic).st.trace
    ∧ ((runMain { notify := false } (egEnvFile ["home", "Pictures", "shot.png"]) egFSpic).exit
          = RunExit.exited 0
      ∧ (runMain { notify := false } (egEnvFile ["home", "Pictures", "shot.png"])
          egFSpic).st.stdout.getLast?
        = some "/home/Pictures/Screenshots/Screenshot_2026-10-12_09-05-03.png") :=
  ⟨rfl,
   (C9_no_notify_no_bus { notify := false } (egEnvFile ["home", "Pictures", "shot.png"])
      egFSpic rfl).1,
   (C9_no_notify_no_bus { notify := false } (egEnvFile ["home", "Pictures", "shot.png"])
      egFSpic rfl).2
     "/home/Pictures/Screenshots/Screenshot_2026-10-12_09-05-03.png" (by decide)⟩

/-- C10: with interactive=false and no valid save_dir, the fallback
`<pictures>/Screenshots` directory is created before the capture request is
issued: in the whole-run trace the creation event strictly precedes the
capture-request event, and for EVERY response — portal errors and
cancellation included — the directory exists in the final filesystem. -/
theorem C10_fallback_dir_precedes_request (args : Args) (env : Env) (fs : FS) (pics : Path)
    (st1 : St) (sd : Option Path)
    (hi : args.interactive = false)
    (hv : validSaveDir fs args.save_dir = none)
    (hp : env.picturesDir = some pics)
    (hok : stepSaveDir args env (initSt fs) = .inr (st1, sd)) :
    (runMain args env fs).st.trace.takeWhile (fun e => decide (e ≠ Event.captureRequest))
        = [Event.fsOp (FsOp.createDirAll (Path.join pics "Screenshots"))]
    ∧ Event.captureRequest ∈ (runMain args env fs).st.trace
    ∧ (runMain args env fs).st.fs.isDir (Path.join pics "Screenshots") = true := by
  obtain ⟨hsd, htr1, hda, _, _⟩ := stepSaveDir_fallback args env fs pics st1 sd hi hv hp hok
  have hdir1 : st1.fs.isDir (Path.join pics "Screenshots") = true := createDirAll_isDir _ _ _ hda
  have hne : Event.fsOp (FsOp.createDirAll (Path.join pics "Screenshots"))
      ≠ Event.captureRequest := fun hcon => Event.noConfusion hcon
  have hrm0 := runMain_eq args env fs st1 sd hok
  cases h2 : stepCapture env st1 with
  | inl r =>
    simp only [h2] at hrm0
    obtain ⟨_, htr, hfs⟩ := stepCapture_inl env st1 r h2
    rw [hrm0, htr, htr1, hfs]
    refine ⟨?_, ?_, hdir1⟩
    · exact takeWhile_pair _ _ _ hne
    · simp
  | inr su =>
    obtain ⟨st2, uri⟩ := su
    simp only [h2] at hrm0
    obtain ⟨hst2, _⟩ := stepCapture_inr env st1 st2 uri h2
    cases h3 : stepPath sd env st2 uri with
    | inl r =>
      simp only [h3] at hrm0
      obtain ⟨_, hpres, extra, htr, _⟩ := stepPath_inl sd env st2 uri r h3
      rw [hrm0, htr, hst2]
      refine ⟨?_, ?_, ?_⟩
      · show (((st1.trace ++ [Event.captureRequest]) ++ extra).takeWhile
            (fun e => decide (e ≠ Event.captureRequest)))
          = [Event.fsOp (FsOp.createDirAll (Path.join pics "Screenshots"))]
        rw [htr1]
        exact takeWhile_pair _ _ _ hne
      · show Event.captureRequest ∈ (st1.trace ++ [Event.captureRequest]) ++ extra
        simp
      · exact hpres _ (by rw [hst2]; exact hdir1)
    | inr sp =>
      obtain ⟨st3, p0⟩ := sp
      simp only [h3] at hrm0
      obtain ⟨_, _, hpres, extra, htr, _⟩ := stepPath_inr sd env st2 st3 uri p0 h3
      obtain ⟨extra2, htr2⟩ := stepFinish_trace args env st3 p0
      have hfs2 := stepFinish_fs args env st3 p0
      rw [hrm0, htr2, htr, hst2, hfs2]
      refine ⟨?_, ?_, ?_⟩
      · show ((((st1.trace ++ [Event.captureRequest]) ++ extra) ++ extra2).takeWhile
            (fun e => decide (e ≠ Event.captureRequest)))
          = [Event.fsOp (FsOp.createDirAll (Path.join pics "Screenshots"))]
        rw [htr1]
        exact takeWhile_pair _ _ _ hne
      · show Event.captureRequest ∈ ((st1.trace ++ [Event.captureRequest]) ++ extra) ++ extra2
        simp
      · exact hpres _ (by rw [hst2]; exact hdir1)

/-- C10 witness: hypotheses discharged on a concrete non-interactive run whose
portal response is a cancellation error. -/
theorem C10_witness :
    (({ interactive := false } : Args).interactive = false
      ∧ validSaveDir egFSdoc ({ interactive := false } : Args).save_dir = none
      ∧ (egEnvErr "Cancelled").picturesDir = some ["home", "Pictures"]
      ∧ stepSaveDir { interactive := false } (egEnvErr "Cancelled") (initSt egFSdoc)
          = .inr (egSt1, some (Path.join ["home", "Pictures"] "Screenshots")))
    ∧ ((runMain { interactive := false } (egEnvErr "Cancelled") egFSdoc).st.trace.takeWhile
          (fun e => decide (e ≠ Event.captureRequest))
        = [Event.fsOp (FsOp.createDirAll (Path.join ["home", "Pictures"] "Screenshots"))]
      ∧ Event.captureRequest
          ∈ (runMain { interactive := false } (egEnvErr "Cancelled") egFSdoc).st.trace
      ∧ (runMain { interactive := false } (egEnvErr "Cancelled") egFSdoc).st.fs.isDir
          (Path.join ["home", "Pictures"] "Screenshots") = true) :=
  ⟨⟨rfl, rfl, rfl, by decide⟩,
   C10_fallback_dir_precedes_request { interactive := false } (egEnvErr "Cancelled") egFSdoc
     ["home", "Pictures"] egSt1 (some (Path.join ["home", "Pictures"] "Screenshots"))
     rfl rfl rfl (by decide)⟩

end CosmicScreenshot
